import Mathlib

/-!
# SleepHook: power-notification daemon

A shallow embedding of `SleepHook/main.c`.  The program is a sequence of calls
into the operating system, so every function is modelled as a transformer of a
`World`: the global `selfContext` together with the trace of calls made so far,
in program order.  A function either returns to its caller (`Outcome.ret`) or
ends the process through `exit` (`Outcome.exit`).  What the operating system
answers (the result of `access`, of `system`, of `IORegisterForSystemPower`) is
read from an `Env`.
-/

namespace SleepHook

/-! ## Constants of the platform headers -/

/-- `EXIT_SUCCESS` of `<stdlib.h>`. -/
def EXIT_SUCCESS : Int := 0

/-- `EXIT_FAILURE` of `<stdlib.h>`. -/
def EXIT_FAILURE : Int := 1

/-- `LOG_ERR` of `<syslog.h>`. -/
def LOG_ERR : Nat := 3

/-- `LOG_DEBUG` of `<syslog.h>`. -/
def LOG_DEBUG : Nat := 7

/-- `SIGINT` of `<signal.h>`. -/
def SIGINT : Int := 2

/-- `SIGQUIT` of `<signal.h>`. -/
def SIGQUIT : Int := 3

/-- `SIGABRT` of `<signal.h>`. -/
def SIGABRT : Int := 6

/-- `SIGKILL` of `<signal.h>`. -/
def SIGKILL : Int := 9

/-- `SIGTERM` of `<signal.h>`. -/
def SIGTERM : Int := 15

/-- `MACH_PORT_NULL` of `<mach/port.h>`. -/
def MACH_PORT_NULL : Nat := 0

/-- `kIOMessageCanSystemSleep`, `iokit_common_msg(0x270)` in `<IOKit/IOMessage.h>`. -/
def kIOMessageCanSystemSleep : Nat := 0xE0000270

/-- `kIOMessageSystemWillSleep`, `iokit_common_msg(0x280)`. -/
def kIOMessageSystemWillSleep : Nat := 0xE0000280

/-- `kIOMessageSystemHasPoweredOn`, `iokit_common_msg(0x300)`. -/
def kIOMessageSystemHasPoweredOn : Nat := 0xE0000300

/-- `kIOMessageSystemWillPowerOn`, `iokit_common_msg(0x320)`. -/
def kIOMessageSystemWillPowerOn : Nat := 0xE0000320

/-! ## Data model -/

/-- The three standard streams closed by `main`. -/
inductive StdStream
  | stdin
  | stdout
  | stderr
  deriving DecidableEq, Repr

/-- An argument following the format string of a `syslog` call: a `char *`
(which may be the null pointer) for `%s`, an `int` for `%i`. -/
inductive LogArg
  | str (s : Option String)
  | int (i : Int)
  deriving DecidableEq, Repr

/-- One call into the operating system, as recorded in the trace. -/
inductive Effect
  | printf (text : String)
  | syslog (priority : Nat) (format : String) (args : List LogArg)
  | system (command : Option String)
  | signal (sig : Int)
  | fclose (stream : StdStream)
  | IORegisterForSystemPower
  | CFRunLoopAddSourceCommonModes (port : Nat)
  | CFRunLoopRemoveSourceCommonModes (port : Nat)
  | CFRunLoopRun
  | IOAllowPowerChange (kernelPort : Nat) (notificationID : Int)
  | IOCancelPowerChange (kernelPort : Nat) (notificationID : Int)
  | IODeregisterForSystemPower (notifier : Nat)
  | IOServiceClose (connect : Nat)
  | IONotificationPortDestroy (port : Nat)
  deriving DecidableEq, Repr

/-- The global `selfContext`.  A `char *` field is `none` when it is the null
pointer. -/
structure SelfContext where
  sleepHookScript : Option String
  wakeHookScript : Option String
  pmRoot : Nat
  pmNotifier : Nat
  pmNotificationPortRef : Nat
  deriving DecidableEq, Repr

/-- The program state: the global context and the calls made so far. -/
structure World where
  selfContext : SelfContext
  trace : List Effect
  deriving DecidableEq, Repr

/-- How a function ends: it returns to its caller, or the process ends in
`exit(status)`. -/
inductive Outcome
  | ret (w : World)
  | exit (status : Int) (w : World)
  deriving DecidableEq, Repr

/-- What `IORegisterForSystemPower` hands back: the returned root port and the
two out-parameters. -/
structure Registration where
  pmRoot : Nat
  pmNotificationPortRef : Nat
  pmNotifier : Nat
  deriving DecidableEq, Repr

/-- The answers of the operating system.  `access path` is the return value of
`access(path, X_OK)`, `system command` the return value of `system(command)`;
both take a `char *`, so the null pointer is an argument like any other. -/
structure Env where
  access : Option String → Int
  system : Option String → Int
  registration : Registration

/-- One result of `getopt(argc, argv, "w:s:")` other than `-1`: the option
character returned and the value of `optarg` at that time. -/
structure GetoptResult where
  ch : Char
  optarg : Option String
  deriving DecidableEq, Repr

/-- What the run loop dispatches: a power notification for `callbackPower`, or
a signal for `callbackSignal`. -/
inductive Event
  | power (service : Nat) (messageType : Nat) (messageArgument : Nat)
  | signal (signalCode : Int)
  deriving DecidableEq, Repr

/-! ## The program -/

/-- Append one call to the trace. -/
def emit (e : Effect) (w : World) : World :=
  { w with trace := w.trace ++ [e] }

/-- Sequencing: continue with `k` unless the process has exited. -/
def Outcome.andThen (o : Outcome) (k : World → Outcome) : Outcome :=
  match o with
  | .ret w => k w
  | .exit status w => .exit status w

/-- The cast `(long)messageArgument` of a 64-bit pointer value. -/
def toLong (p : Nat) : Int :=
  if p % 2 ^ 64 < 2 ^ 63 then (p % 2 ^ 64 : Nat) else ((p % 2 ^ 64 : Nat) : Int) - 2 ^ 64

/-- `usage()`: three `printf` calls. -/
def usage (w : World) : Outcome :=
  .ret (emit (.printf "   -w: script to be executed on \x27WillPowerOn\x27 event\n")
    (emit (.printf "   -s: script to be executed on \x27WillSleep\x27 event\n")
      (emit (.printf "Usage: SleepHook \x7b [-s pathname] [-w pathname] \x7d\n") w)))

/-- `executeScript(script)`.  The arguments of the first `syslog` call are
evaluated before the call, so `system(script)` comes first in the trace. -/
def executeScript (env : Env) (script : Option String) (w : World) : Outcome :=
  if env.access script = 0 then
    .ret (emit (.syslog LOG_DEBUG "Execution of script \x27%s\x27 finished with \x27%i\x27. \n"
        [.str script, .int (env.system script)])
      (emit (.system script) w))
  else
    .ret (emit (.syslog LOG_ERR "\x27%s\x27 could not be executed. (%m)\n" [.str script]) w)

/-- `registerForNotifications()`. -/
def registerForNotifications (env : Env) (w : World) : Outcome :=
  let w1 : World :=
    { selfContext :=
        { w.selfContext with
          pmRoot := env.registration.pmRoot
          pmNotificationPortRef := env.registration.pmNotificationPortRef
          pmNotifier := env.registration.pmNotifier }
      trace := w.trace ++ [.IORegisterForSystemPower] }
  if w1.selfContext.pmRoot = MACH_PORT_NULL then
    .exit EXIT_FAILURE
      (emit (.syslog LOG_ERR "Registering for power notifications failed. (%m)\n" []) w1)
  else
    .ret (emit (.syslog LOG_DEBUG "Registered for notification\n" [])
      (emit (.CFRunLoopAddSourceCommonModes w1.selfContext.pmNotificationPortRef) w1))

/-- `deRegisterForNotifications()`. -/
def deRegisterForNotifications (w : World) : Outcome :=
  .ret (emit (.syslog LOG_DEBUG "Deregistered for notification\n" [])
    (emit (.IONotificationPortDestroy w.selfContext.pmNotificationPortRef)
      (emit (.IOServiceClose w.selfContext.pmRoot)
        (emit (.IODeregisterForSystemPower w.selfContext.pmNotifier)
          (emit (.CFRunLoopRemoveSourceCommonModes w.selfContext.pmNotificationPortRef) w)))))

/-- `callbackSignal(signalCode)`. -/
def callbackSignal (signalCode : Int) (w : World) : Outcome :=
  if signalCode = SIGINT ∨ signalCode = SIGQUIT ∨ signalCode = SIGABRT ∨
      signalCode = SIGKILL ∨ signalCode = SIGTERM then
    (deRegisterForNotifications
      (emit (.syslog LOG_DEBUG "Terminating signal received (%i)\n" [.int signalCode]) w)).andThen
      fun w1 => .exit EXIT_SUCCESS w1
  else
    .ret w

/-- `callbackPower(refcon, service, messageType, messageArgument)`. -/
def callbackPower (env : Env) (refcon : Nat) (service : Nat) (messageType : Nat)
    (messageArgument : Nat) (w : World) : Outcome :=
  if messageType = kIOMessageCanSystemSleep then
    .ret (emit (.IOAllowPowerChange w.selfContext.pmRoot (toLong messageArgument))
      (emit (.syslog LOG_DEBUG "kIOMessageCanSystemSleep\n" []) w))
  else if messageType = kIOMessageSystemWillSleep then
    (executeScript env w.selfContext.sleepHookScript
      (emit (.syslog LOG_DEBUG "kIOMessageSystemWillSleep\n" []) w)).andThen
      fun w1 => .ret (emit (.IOAllowPowerChange w1.selfContext.pmRoot (toLong messageArgument)) w1)
  else if messageType = kIOMessageSystemWillPowerOn then
    .ret (emit (.syslog LOG_DEBUG "kIOMessageSystemWillPowerOn\n" []) w)
  else if messageType = kIOMessageSystemHasPoweredOn then
    executeScript env w.selfContext.wakeHookScript
      (emit (.syslog LOG_DEBUG "kIOMessageSystemHasPoweredOn\n" []) w)
  else
    .ret w

/-- The `while ((ch = getopt(...)) != -1)` loop of `main`, over the results
that `getopt` produces before it returns `-1`. -/
def getoptLoop : List GetoptResult → World → Outcome
  | [], w => .ret w
  | o :: rest, w =>
    if o.ch = 's' then
      getoptLoop rest { w with selfContext := { w.selfContext with sleepHookScript := o.optarg } }
    else if o.ch = 'w' then
      getoptLoop rest { w with selfContext := { w.selfContext with wakeHookScript := o.optarg } }
    else
      (usage w).andThen fun w1 => .exit EXIT_FAILURE w1

/-- Dispatch of one event by the run loop. -/
def dispatch (env : Env) (e : Event) (w : World) : Outcome :=
  match e with
  | .power service messageType messageArgument =>
    callbackPower env 0 service messageType messageArgument w
  | .signal signalCode => callbackSignal signalCode w

/-- The events a run of `CFRunLoopRun()` dispatches, in delivery order; the
call returns when they are used up. -/
def runLoopEvents (env : Env) : List Event → World → Outcome
  | [], w => .ret w
  | e :: rest, w => (dispatch env e w).andThen (runLoopEvents env rest)

/-- `CFRunLoopRun()`. -/
def CFRunLoopRun (env : Env) (events : List Event) (w : World) : Outcome :=
  runLoopEvents env events (emit .CFRunLoopRun w)

/-- The world after `memset(&selfContext, 0, sizeof(selfContext))`, before any
call has been made. -/
def initialWorld : World :=
  { selfContext :=
      { sleepHookScript := none, wakeHookScript := none
        pmRoot := 0, pmNotifier := 0, pmNotificationPortRef := 0 }
    trace := [] }

/-- `main(argc, argv)`: `opts` are the results of `getopt` on the command line,
`events` what the run loop delivers. -/
def main (env : Env) (opts : List GetoptResult) (events : List Event) : Outcome :=
  (getoptLoop opts initialWorld).andThen fun w =>
    if w.selfContext.sleepHookScript = none ∧ w.selfContext.wakeHookScript = none then
      (usage w).andThen fun w1 => .exit EXIT_FAILURE w1
    else
      let w2 :=
        emit (.fclose .stderr) (emit (.fclose .stdout) (emit (.fclose .stdin)
          (emit (.signal SIGTERM) (emit (.signal SIGKILL) (emit (.signal SIGABRT)
            (emit (.signal SIGQUIT) (emit (.signal SIGINT) w)))))))
      (registerForNotifications env w2).andThen fun w3 =>
        (CFRunLoopRun env events w3).andThen fun w4 =>
          (deRegisterForNotifications (emit (.syslog LOG_ERR "Unexpected termination\n" []) w4)).andThen
            fun w5 => .exit EXIT_SUCCESS w5

/-! ## Observations on a trace -/

/-- The commands handed to `system`, in order. -/
def launches (es : List Effect) : List (Option String) :=
  es.filterMap fun e =>
    match e with
    | .system command => some command
    | _ => none

/-- Is this call an acknowledgment of a power change (allow or cancel)? -/
def isAcknowledgment : Effect → Bool
  | .IOAllowPowerChange _ _ => true
  | .IOCancelPowerChange _ _ => true
  | _ => false

/-- The acknowledgment calls of a trace, in order. -/
def acknowledgments (es : List Effect) : List Effect :=
  es.filter isAcknowledgment

/-- Is this call a `syslog` call? -/
def isLog : Effect → Bool
  | .syslog _ _ _ => true
  | _ => false

/-- The `syslog` calls of a trace, in order. -/
def logLines (es : List Effect) : List Effect :=
  es.filter isLog

/-- The world an outcome ends in. -/
def Outcome.world : Outcome → World
  | .ret w => w
  | .exit _ w => w

/-- The three lines printed by `usage`. -/
def usageText : List Effect :=
  [.printf "Usage: SleepHook \x7b [-s pathname] [-w pathname] \x7d\n",
    .printf "   -s: script to be executed on \x27WillSleep\x27 event\n",
    .printf "   -w: script to be executed on \x27WillPowerOn\x27 event\n"]

/-! ## Sample inputs -/

/-- An operating system on which every named path is executable and every
script ends with status 3; a null pathname is refused by `access`, and the
registration succeeds. -/
def sampleEnv : Env :=
  { access := fun path => if path = none then -1 else 0
    system := fun _ => 3
    registration := { pmRoot := 11, pmNotificationPortRef := 12, pmNotifier := 13 } }

/-- An operating system on which no path is executable and the registration
fails. -/
def refusingEnv : Env :=
  { access := fun _ => -1
    system := fun _ => 0
    registration := { pmRoot := 0, pmNotificationPortRef := 0, pmNotifier := 0 } }

/-- A registered daemon started as `SleepHook -s /etc/sleep.sh -w /etc/wake.sh`. -/
def bothHooksWorld : World :=
  { selfContext :=
      { sleepHookScript := some "/etc/sleep.sh", wakeHookScript := some "/etc/wake.sh"
        pmRoot := 11, pmNotifier := 13, pmNotificationPortRef := 12 }
    trace := [] }

/-- A registered daemon started as `SleepHook -w /etc/wake.sh`. -/
def wakeOnlyWorld : World :=
  { selfContext :=
      { sleepHookScript := none, wakeHookScript := some "/etc/wake.sh"
        pmRoot := 11, pmNotifier := 13, pmNotificationPortRef := 12 }
    trace := [] }

/-- A registered daemon started as `SleepHook -s /etc/sleep.sh`. -/
def sleepOnlyWorld : World :=
  { selfContext :=
      { sleepHookScript := some "/etc/sleep.sh", wakeHookScript := none
        pmRoot := 11, pmNotifier := 13, pmNotificationPortRef := 12 }
    trace := [] }

/-! ## Power notifications -/

/-- C1: on `kIOMessageSystemWillSleep`, with the sleep hook set to a path that
`access` reports executable, and whatever status `system` returns, the handler
returns normally; the calls it adds contain exactly one launch, that of the
sleep hook; no acknowledgment precedes the launch; and exactly one
acknowledgment follows it, `IOAllowPowerChange` on `pmRoot` with the token of
the notification, as the last call. -/
theorem willSleep_runs_hook_once_then_allows (env : Env) (refcon service messageArgument : Nat)
    (w : World) (p : String) (hcfg : w.selfContext.sleepHookScript = some p)
    (hx : env.access (some p) = 0) :
    ∃ pre post,
      callbackPower env refcon service kIOMessageSystemWillSleep messageArgument w
        = .ret { w with trace := w.trace ++ (pre ++ Effect.system (some p) :: post) } ∧
      launches (pre ++ Effect.system (some p) :: post) = [some p] ∧
      acknowledgments pre = [] ∧
      acknowledgments post
        = [Effect.IOAllowPowerChange w.selfContext.pmRoot (toLong messageArgument)] ∧
      post.getLast? = some (Effect.IOAllowPowerChange w.selfContext.pmRoot (toLong messageArgument)) := by
  refine ⟨[.syslog LOG_DEBUG "kIOMessageSystemWillSleep\n" []],
    [.syslog LOG_DEBUG "Execution of script \x27%s\x27 finished with \x27%i\x27. \n"
        [.str (some p), .int (env.system (some p))],
      .IOAllowPowerChange w.selfContext.pmRoot (toLong messageArgument)], ?_, ?_, ?_, ?_, ?_⟩
  · simp [callbackPower, executeScript, emit, Outcome.andThen, hcfg, hx,
      kIOMessageSystemWillSleep, kIOMessageCanSystemSleep]
  · simp [launches]
  · simp [acknowledgments, isAcknowledgment]
  · simp [acknowledgments, isAcknowledgment]
  · simp

/-- Witness for C1: the daemon with both hooks, token 5. -/
theorem willSleep_runs_hook_once_then_allows_witness :
    ∃ pre post,
      callbackPower sampleEnv 0 0 kIOMessageSystemWillSleep 5 bothHooksWorld
        = .ret { bothHooksWorld with
            trace := bothHooksWorld.trace ++ (pre ++ Effect.system (some "/etc/sleep.sh") :: post) } ∧
      launches (pre ++ Effect.system (some "/etc/sleep.sh") :: post) = [some "/etc/sleep.sh"] ∧
      acknowledgments pre = [] ∧
      acknowledgments post = [Effect.IOAllowPowerChange bothHooksWorld.selfContext.pmRoot (toLong 5)] ∧
      post.getLast? = some (Effect.IOAllowPowerChange bothHooksWorld.selfContext.pmRoot (toLong 5)) :=
  willSleep_runs_hook_once_then_allows sampleEnv 0 0 5 bothHooksWorld "/etc/sleep.sh" rfl
    (by simp [sampleEnv])

/-- C2: on `kIOMessageCanSystemSleep`, in every context, the handler returns
normally and the calls it adds contain exactly one acknowledgment,
`IOAllowPowerChange` on `pmRoot` with the token of the notification; no
`IOCancelPowerChange` is among them and no script is launched. -/
theorem canSystemSleep_allows_once (env : Env) (refcon service messageArgument : Nat)
    (w : World) :
    ∃ es,
      callbackPower env refcon service kIOMessageCanSystemSleep messageArgument w
        = .ret { w with trace := w.trace ++ es } ∧
      acknowledgments es
        = [Effect.IOAllowPowerChange w.selfContext.pmRoot (toLong messageArgument)] ∧
      (∀ kernelPort notificationID, Effect.IOCancelPowerChange kernelPort notificationID ∉ es) ∧
      launches es = [] := by
  refine ⟨[.syslog LOG_DEBUG "kIOMessageCanSystemSleep\n" [],
    .IOAllowPowerChange w.selfContext.pmRoot (toLong messageArgument)], ?_, ?_, ?_, ?_⟩
  · simp [callbackPower, emit]
  · simp [acknowledgments, isAcknowledgment]
  · simp
  · simp [launches]

/-- C3: on `kIOMessageSystemHasPoweredOn`, with the wake hook set to a path
that `access` reports executable, the handler returns normally and the calls
it adds contain exactly one launch, that of the wake hook (so none made for
the sleep hook), and no acknowledgment, allow or cancel. -/
theorem hasPoweredOn_runs_wake_hook_once_no_ack (env : Env) (refcon service messageArgument : Nat)
    (w : World) (p : String) (hcfg : w.selfContext.wakeHookScript = some p)
    (hx : env.access (some p) = 0) :
    ∃ es,
      callbackPower env refcon service kIOMessageSystemHasPoweredOn messageArgument w
        = .ret { w with trace := w.trace ++ es } ∧
      launches es = [some p] ∧
      (∀ q, w.selfContext.sleepHookScript = some q → q ≠ p → Effect.system (some q) ∉ es) ∧
      acknowledgments es = [] := by
  refine ⟨[.syslog LOG_DEBUG "kIOMessageSystemHasPoweredOn\n" [], .system (some p),
    .syslog LOG_DEBUG "Execution of script \x27%s\x27 finished with \x27%i\x27. \n"
      [.str (some p), .int (env.system (some p))]], ?_, ?_, ?_, ?_⟩
  · simp [callbackPower, executeScript, emit, hcfg, hx, kIOMessageSystemHasPoweredOn,
      kIOMessageSystemWillPowerOn, kIOMessageSystemWillSleep, kIOMessageCanSystemSleep]
  · simp [launches]
  · intro q _ hq
    simp [hq]
  · simp [acknowledgments, isAcknowledgment]

/-- Witness for C3: the daemon with both hooks. -/
theorem hasPoweredOn_runs_wake_hook_once_no_ack_witness :
    ∃ es,
      callbackPower sampleEnv 0 0 kIOMessageSystemHasPoweredOn 0 bothHooksWorld
        = .ret { bothHooksWorld with trace := bothHooksWorld.trace ++ es } ∧
      launches es = [some "/etc/wake.sh"] ∧
      (∀ q, bothHooksWorld.selfContext.sleepHookScript = some q → q ≠ "/etc/wake.sh" →
        Effect.system (some q) ∉ es) ∧
      acknowledgments es = [] :=
  hasPoweredOn_runs_wake_hook_once_no_ack sampleEnv 0 0 0 bothHooksWorld "/etc/wake.sh" rfl
    (by simp [sampleEnv])

/-- C5: on `kIOMessageSystemWillSleep`, with the sleep hook set to a path for
which the `access` check fails, the handler returns normally; the calls it
adds contain the error line of `executeScript` for that path, no launch, and
exactly one acknowledgment, `IOAllowPowerChange` on `pmRoot` with the token of
the notification, as the last call. -/
theorem willSleep_not_executable_logs_and_allows (env : Env)
    (refcon service messageArgument : Nat) (w : World) (p : String)
    (hcfg : w.selfContext.sleepHookScript = some p) (hx : env.access (some p) ≠ 0) :
    ∃ es,
      callbackPower env refcon service kIOMessageSystemWillSleep messageArgument w
        = .ret { w with trace := w.trace ++ es } ∧
      Effect.syslog LOG_ERR "\x27%s\x27 could not be executed. (%m)\n" [.str (some p)] ∈ es ∧
      launches es = [] ∧
      acknowledgments es
        = [Effect.IOAllowPowerChange w.selfContext.pmRoot (toLong messageArgument)] ∧
      es.getLast? = some (Effect.IOAllowPowerChange w.selfContext.pmRoot (toLong messageArgument)) := by
  refine ⟨[.syslog LOG_DEBUG "kIOMessageSystemWillSleep\n" [],
    .syslog LOG_ERR "\x27%s\x27 could not be executed. (%m)\n" [.str (some p)],
    .IOAllowPowerChange w.selfContext.pmRoot (toLong messageArgument)], ?_, ?_, ?_, ?_, ?_⟩
  · simp [callbackPower, executeScript, emit, Outcome.andThen, hcfg, hx,
      kIOMessageSystemWillSleep, kIOMessageCanSystemSleep]
  · simp
  · simp [launches]
  · simp [acknowledgments, isAcknowledgment]
  · simp

/-- Witness for C5: no path is executable, token 5. -/
theorem willSleep_not_executable_logs_and_allows_witness :
    ∃ es,
      callbackPower refusingEnv 0 0 kIOMessageSystemWillSleep 5 sleepOnlyWorld
        = .ret { sleepOnlyWorld with trace := sleepOnlyWorld.trace ++ es } ∧
      Effect.syslog LOG_ERR "\x27%s\x27 could not be executed. (%m)\n"
        [.str (some "/etc/sleep.sh")] ∈ es ∧
      launches es = [] ∧
      acknowledgments es = [Effect.IOAllowPowerChange sleepOnlyWorld.selfContext.pmRoot (toLong 5)] ∧
      es.getLast? = some (Effect.IOAllowPowerChange sleepOnlyWorld.selfContext.pmRoot (toLong 5)) :=
  willSleep_not_executable_logs_and_allows refusingEnv 0 0 5 sleepOnlyWorld "/etc/sleep.sh" rfl
    (by simp [refusingEnv])

/-- C6, as stated, fails: started with only a wake hook, so that the sleep
hook is the null pointer, `executeScript` on that null path does not leave the
trace without a launch and without a log line. -/
theorem executeScript_unset_path_is_not_a_noop :
    ¬ ∃ w', executeScript sampleEnv none wakeOnlyWorld = .ret w' ∧
      launches w'.trace = [] ∧ logLines w'.trace = [] := by
  rintro ⟨w', h, -, hlog⟩
  simp [executeScript, sampleEnv, emit, wakeOnlyWorld] at h
  subst h
  simp [logLines, isLog] at hlog

/-- C6, amended: when `access` refuses the null pathname, `executeScript` on an
unset path launches nothing and adds exactly one call, the `LOG_ERR` line
"could not be executed"; so `kIOMessageSystemWillSleep` without a sleep hook
adds the handler's own log line, that error line and the acknowledgment, and
`kIOMessageSystemHasPoweredOn` without a wake hook adds the handler's own log
line and that error line. -/
theorem executeScript_unset_path_logs_error (env : Env) (hnull : env.access none ≠ 0) :
    (∀ w : World,
      executeScript env none w
        = .ret { w with trace := w.trace ++
            [.syslog LOG_ERR "\x27%s\x27 could not be executed. (%m)\n" [.str none]] }) ∧
    (∀ (w : World) (refcon service messageArgument : Nat),
      w.selfContext.sleepHookScript = none →
      callbackPower env refcon service kIOMessageSystemWillSleep messageArgument w
        = .ret { w with trace := w.trace ++
            [.syslog LOG_DEBUG "kIOMessageSystemWillSleep\n" [],
              .syslog LOG_ERR "\x27%s\x27 could not be executed. (%m)\n" [.str none],
              .IOAllowPowerChange w.selfContext.pmRoot (toLong messageArgument)] }) ∧
    (∀ (w : World) (refcon service messageArgument : Nat),
      w.selfContext.wakeHookScript = none →
      callbackPower env refcon service kIOMessageSystemHasPoweredOn messageArgument w
        = .ret { w with trace := w.trace ++
            [.syslog LOG_DEBUG "kIOMessageSystemHasPoweredOn\n" [],
              .syslog LOG_ERR "\x27%s\x27 could not be executed. (%m)\n" [.str none]] }) := by
  refine ⟨?_, ?_, ?_⟩
  · intro w
    simp [executeScript, emit, hnull]
  · intro w refcon service messageArgument hcfg
    simp [callbackPower, executeScript, emit, Outcome.andThen, hcfg, hnull,
      kIOMessageSystemWillSleep, kIOMessageCanSystemSleep]
  · intro w refcon service messageArgument hcfg
    simp [callbackPower, executeScript, emit, hcfg, hnull, kIOMessageSystemHasPoweredOn,
      kIOMessageSystemWillPowerOn, kIOMessageSystemWillSleep, kIOMessageCanSystemSleep]

/-- Witness for the amended C6: a daemon with only a wake hook going to sleep,
and one with only a sleep hook waking up. -/
theorem executeScript_unset_path_logs_error_witness :
    sampleEnv.access none ≠ 0 ∧
    executeScript sampleEnv none wakeOnlyWorld
      = .ret { wakeOnlyWorld with trace := wakeOnlyWorld.trace ++
          [.syslog LOG_ERR "\x27%s\x27 could not be executed. (%m)\n" [.str none]] } ∧
    callbackPower sampleEnv 0 0 kIOMessageSystemWillSleep 5 wakeOnlyWorld
      = .ret { wakeOnlyWorld with trace := wakeOnlyWorld.trace ++
          [.syslog LOG_DEBUG "kIOMessageSystemWillSleep\n" [],
            .syslog LOG_ERR "\x27%s\x27 could not be executed. (%m)\n" [.str none],
            .IOAllowPowerChange wakeOnlyWorld.selfContext.pmRoot (toLong 5)] } ∧
    callbackPower sampleEnv 0 0 kIOMessageSystemHasPoweredOn 0 sleepOnlyWorld
      = .ret { sleepOnlyWorld with trace := sleepOnlyWorld.trace ++
          [.syslog LOG_DEBUG "kIOMessageSystemHasPoweredOn\n" [],
            .syslog LOG_ERR "\x27%s\x27 could not be executed. (%m)\n" [.str none]] } :=
  have hnull : sampleEnv.access none ≠ 0 := by simp [sampleEnv]
  ⟨hnull,
    (executeScript_unset_path_logs_error sampleEnv hnull).1 wakeOnlyWorld,
    (executeScript_unset_path_logs_error sampleEnv hnull).2.1 wakeOnlyWorld 0 0 5 rfl,
    (executeScript_unset_path_logs_error sampleEnv hnull).2.2 sleepOnlyWorld 0 0 0 rfl⟩

/-- C9 at the failing input: `usage` announces that the `-w` script runs on the
`WillPowerOn` event, yet on `kIOMessageSystemWillPowerOn`, with an executable
wake hook configured, the handler only writes its own log line and launches
nothing. -/
theorem willPowerOn_does_not_run_wake_hook :
    Effect.printf "   -w: script to be executed on \x27WillPowerOn\x27 event\n"
      ∈ (usage wakeOnlyWorld).world.trace ∧
    wakeOnlyWorld.selfContext.wakeHookScript = some "/etc/wake.sh" ∧
    sampleEnv.access (some "/etc/wake.sh") = 0 ∧
    callbackPower sampleEnv 0 0 kIOMessageSystemWillPowerOn 0 wakeOnlyWorld
      = .ret { wakeOnlyWorld with
          trace := [.syslog LOG_DEBUG "kIOMessageSystemWillPowerOn\n" []] } ∧
    launches (callbackPower sampleEnv 0 0 kIOMessageSystemWillPowerOn 0 wakeOnlyWorld).world.trace
      = [] := by
  refine ⟨?_, rfl, ?_, ?_, ?_⟩
  · simp [usage, emit, Outcome.world]
  · simp [sampleEnv]
  · simp [callbackPower, emit, wakeOnlyWorld, kIOMessageSystemWillPowerOn,
      kIOMessageSystemWillSleep, kIOMessageCanSystemSleep]
  · simp [callbackPower, emit, wakeOnlyWorld, launches, Outcome.world,
      kIOMessageSystemWillPowerOn, kIOMessageSystemWillSleep, kIOMessageCanSystemSleep]

/-- C10, as stated, fails: a notification of kind `0xE0000290` (none of the
four handled kinds) is not logged. -/
theorem unrecognized_kind_is_not_logged :
    ¬ ∃ w', callbackPower sampleEnv 0 0 0xE0000290 0 bothHooksWorld = .ret w' ∧
      logLines w'.trace ≠ [] ∧ launches w'.trace = [] ∧ acknowledgments w'.trace = [] := by
  rintro ⟨w', h, hlog, -, -⟩
  simp [callbackPower, kIOMessageSystemHasPoweredOn, kIOMessageSystemWillPowerOn,
    kIOMessageSystemWillSleep, kIOMessageCanSystemSleep] at h
  subst h
  simp [logLines, bothHooksWorld] at hlog

/-- C10, amended: for a notification whose kind is none of the four handled
ones, the handler returns normally and leaves the world as it found it: no log
line, no script, no acknowledgment. -/
theorem unrecognized_kind_is_ignored (env : Env) (refcon service messageType messageArgument : Nat)
    (w : World) (h1 : messageType ≠ kIOMessageCanSystemSleep)
    (h2 : messageType ≠ kIOMessageSystemWillSleep)
    (h3 : messageType ≠ kIOMessageSystemWillPowerOn)
    (h4 : messageType ≠ kIOMessageSystemHasPoweredOn) :
    callbackPower env refcon service messageType messageArgument w = .ret w := by
  simp [callbackPower, h1, h2, h3, h4]

/-- Witness for the amended C10: kind `0xE0000290`. -/
theorem unrecognized_kind_is_ignored_witness :
    callbackPower sampleEnv 0 0 0xE0000290 0 bothHooksWorld = .ret bothHooksWorld :=
  unrecognized_kind_is_ignored sampleEnv 0 0 0xE0000290 0 bothHooksWorld
    (by decide) (by decide) (by decide) (by decide)

/-! ## Signals and teardown -/

/-- C7: for each of `SIGINT`, `SIGQUIT`, `SIGABRT`, `SIGKILL`, `SIGTERM`,
`callbackSignal` logs the signal, then makes the four teardown calls once each
in the order remove-source, deregister, close, destroy, logs the
deregistration, and ends the process with `EXIT_SUCCESS`, which is 0. -/
theorem callbackSignal_tears_down_and_exits (signalCode : Int) (w : World)
    (hsig : signalCode ∈ [SIGINT, SIGQUIT, SIGABRT, SIGKILL, SIGTERM]) :
    callbackSignal signalCode w
      = .exit 0 { w with trace := w.trace ++
          [.syslog LOG_DEBUG "Terminating signal received (%i)\n" [.int signalCode],
            .CFRunLoopRemoveSourceCommonModes w.selfContext.pmNotificationPortRef,
            .IODeregisterForSystemPower w.selfContext.pmNotifier,
            .IOServiceClose w.selfContext.pmRoot,
            .IONotificationPortDestroy w.selfContext.pmNotificationPortRef,
            .syslog LOG_DEBUG "Deregistered for notification\n" []] } := by
  have hcond : signalCode = SIGINT ∨ signalCode = SIGQUIT ∨ signalCode = SIGABRT ∨
      signalCode = SIGKILL ∨ signalCode = SIGTERM := by
    simpa using hsig
  simp [callbackSignal, hcond, deRegisterForNotifications, emit, Outcome.andThen, EXIT_SUCCESS]

/-- Witness for C7: `SIGTERM` delivered to the daemon with both hooks. -/
theorem callbackSignal_tears_down_and_exits_witness :
    callbackSignal SIGTERM bothHooksWorld
      = .exit 0 { bothHooksWorld with trace := bothHooksWorld.trace ++
          [.syslog LOG_DEBUG "Terminating signal received (%i)\n" [.int SIGTERM],
            .CFRunLoopRemoveSourceCommonModes bothHooksWorld.selfContext.pmNotificationPortRef,
            .IODeregisterForSystemPower bothHooksWorld.selfContext.pmNotifier,
            .IOServiceClose bothHooksWorld.selfContext.pmRoot,
            .IONotificationPortDestroy bothHooksWorld.selfContext.pmNotificationPortRef,
            .syslog LOG_DEBUG "Deregistered for notification\n" []] } :=
  callbackSignal_tears_down_and_exits SIGTERM bothHooksWorld (by simp)

/-! ## Startup -/

/-- The option loop makes no call when it runs to the end, and only prints the
usage text when it stops the process, which it does with `EXIT_FAILURE`. -/
theorem getoptLoop_cases (opts : List GetoptResult) (w : World) :
    (∃ w', getoptLoop opts w = .ret w' ∧ w'.trace = w.trace) ∨
    (∃ w', getoptLoop opts w = .exit EXIT_FAILURE w' ∧ w'.trace = w.trace ++ usageText) := by
  induction opts generalizing w with
  | nil => exact Or.inl ⟨w, rfl, rfl⟩
  | cons o rest ih =>
    unfold getoptLoop
    by_cases hs : o.ch = 's'
    · simpa [hs] using
        ih { w with selfContext := { w.selfContext with sleepHookScript := o.optarg } }
    · by_cases hw : o.ch = 'w'
      · simpa [hs, hw] using
          ih { w with selfContext := { w.selfContext with wakeHookScript := o.optarg } }
      · right
        simp [hs, hw, usage, emit, Outcome.andThen, usageText]

/-- C4: when both script paths are unset at the end of option parsing, `main`
ends the process with `EXIT_FAILURE`, which is not 0, and its trace contains
neither `IORegisterForSystemPower` nor `CFRunLoopRun`: it consists of the
usage text alone. -/
theorem main_without_scripts_exits_failure (env : Env) (opts : List GetoptResult)
    (events : List Event)
    (hsleep : (getoptLoop opts initialWorld).world.selfContext.sleepHookScript = none)
    (hwake : (getoptLoop opts initialWorld).world.selfContext.wakeHookScript = none) :
    ∃ w', main env opts events = .exit EXIT_FAILURE w' ∧ EXIT_FAILURE ≠ 0 ∧
      w'.trace = usageText ∧
      Effect.IORegisterForSystemPower ∉ w'.trace ∧ Effect.CFRunLoopRun ∉ w'.trace := by
  rcases getoptLoop_cases opts initialWorld with ⟨w, hret, htr⟩ | ⟨w, hexit, htr⟩
  · rw [hret] at hsleep hwake
    simp only [Outcome.world] at hsleep hwake
    have htr' : w.trace = [] := by simpa [initialWorld] using htr
    refine ⟨{ w with trace := usageText }, ?_, by decide, rfl, by simp [usageText],
      by simp [usageText]⟩
    simp [main, hret, Outcome.andThen, hsleep, hwake, usage, emit, htr', usageText]
  · have htr' : w.trace = usageText := by simpa [initialWorld] using htr
    refine ⟨w, ?_, by decide, htr', by simp [htr', usageText], by simp [htr', usageText]⟩
    simp [main, hexit, Outcome.andThen]

/-- Witness for C4: the command line `SleepHook` without any option. -/
theorem main_without_scripts_exits_failure_witness :
    ∃ w', main sampleEnv [] [.power 0 kIOMessageSystemWillSleep 5] = .exit EXIT_FAILURE w' ∧
      EXIT_FAILURE ≠ 0 ∧ w'.trace = usageText ∧
      Effect.IORegisterForSystemPower ∉ w'.trace ∧ Effect.CFRunLoopRun ∉ w'.trace :=
  main_without_scripts_exits_failure sampleEnv [] [.power 0 kIOMessageSystemWillSleep 5] rfl rfl

/-- C8: when `IORegisterForSystemPower` returns `MACH_PORT_NULL`,
`registerForNotifications` logs the failure and ends the process with
`EXIT_FAILURE` (not 0) without attaching a run-loop source, and `main`, on any
command line and any pending events, ends with `EXIT_FAILURE` with neither a
source attached nor `CFRunLoopRun` entered; when it returns another port,
`registerForNotifications` stores the handles, attaches the source of the
notification port in the common modes, logs success and returns. -/
theorem registerForNotifications_fatal_or_attaches :
    (∀ (env : Env) (w : World), env.registration.pmRoot = MACH_PORT_NULL →
      (∃ w', registerForNotifications env w = .exit EXIT_FAILURE w' ∧ EXIT_FAILURE ≠ 0 ∧
        w'.trace = w.trace ++ [.IORegisterForSystemPower,
          .syslog LOG_ERR "Registering for power notifications failed. (%m)\n" []]) ∧
      (∀ (opts : List GetoptResult) (events : List Event),
        ∃ w', main env opts events = .exit EXIT_FAILURE w' ∧
          (∀ port, Effect.CFRunLoopAddSourceCommonModes port ∉ w'.trace) ∧
          Effect.CFRunLoopRun ∉ w'.trace)) ∧
    (∀ (env : Env) (w : World), env.registration.pmRoot ≠ MACH_PORT_NULL →
      registerForNotifications env w
        = .ret
          { selfContext :=
              { w.selfContext with
                pmRoot := env.registration.pmRoot
                pmNotificationPortRef := env.registration.pmNotificationPortRef
                pmNotifier := env.registration.pmNotifier }
            trace := w.trace ++ [.IORegisterForSystemPower,
              .CFRunLoopAddSourceCommonModes env.registration.pmNotificationPortRef,
              .syslog LOG_DEBUG "Registered for notification\n" []] }) := by
  refine ⟨fun env w hnull => ⟨?_, ?_⟩, fun env w hok => ?_⟩
  · simp [registerForNotifications, hnull, emit, EXIT_FAILURE]
  · intro opts events
    rcases getoptLoop_cases opts initialWorld with ⟨w0, hret, htr⟩ | ⟨w0, hexit, htr⟩
    · have htr' : w0.trace = [] := by simpa [initialWorld] using htr
      by_cases hnone : w0.selfContext.sleepHookScript = none ∧ w0.selfContext.wakeHookScript = none
      · refine ⟨{ w0 with trace := usageText }, ?_, by simp [usageText], by simp [usageText]⟩
        simp [main, hret, Outcome.andThen, hnone, usage, emit, htr', usageText]
      · simp [main, hret, Outcome.andThen, hnone, registerForNotifications, hnull, emit, htr']
    · have htr' : w0.trace = usageText := by simpa [initialWorld] using htr
      refine ⟨w0, ?_, by simp [htr', usageText], by simp [htr', usageText]⟩
      simp [main, hexit, Outcome.andThen]
  · simp [registerForNotifications, hok, emit]

/-- Witness for C8: a failing registration met by `SleepHook -s /etc/sleep.sh`,
and a successful one. -/
theorem registerForNotifications_fatal_or_attaches_witness :
    refusingEnv.registration.pmRoot = MACH_PORT_NULL ∧
    (∃ w', registerForNotifications refusingEnv sleepOnlyWorld = .exit EXIT_FAILURE w' ∧
      EXIT_FAILURE ≠ 0 ∧
      w'.trace = sleepOnlyWorld.trace ++ [.IORegisterForSystemPower,
        .syslog LOG_ERR "Registering for power notifications failed. (%m)\n" []]) ∧
    (∃ w', main refusingEnv [⟨'s', some "/etc/sleep.sh"⟩] [.signal SIGTERM]
        = .exit EXIT_FAILURE w' ∧
      (∀ port, Effect.CFRunLoopAddSourceCommonModes port ∉ w'.trace) ∧
      Effect.CFRunLoopRun ∉ w'.trace) ∧
    sampleEnv.registration.pmRoot ≠ MACH_PORT_NULL ∧
    registerForNotifications sampleEnv initialWorld
      = .ret
        { selfContext :=
            { initialWorld.selfContext with
              pmRoot := sampleEnv.registration.pmRoot
              pmNotificationPortRef := sampleEnv.registration.pmNotificationPortRef
              pmNotifier := sampleEnv.registration.pmNotifier }
          trace := initialWorld.trace ++ [.IORegisterForSystemPower,
            .CFRunLoopAddSourceCommonModes sampleEnv.registration.pmNotificationPortRef,
            .syslog LOG_DEBUG "Registered for notification\n" []] } :=
  ⟨rfl,
    (registerForNotifications_fatal_or_attaches.1 refusingEnv sleepOnlyWorld rfl).1,
    (registerForNotifications_fatal_or_attaches.1 refusingEnv sleepOnlyWorld rfl).2
      [⟨'s', some "/etc/sleep.sh"⟩] [.signal SIGTERM],
    by decide,
    registerForNotifications_fatal_or_attaches.2 sampleEnv initialWorld (by decide)⟩

end SleepHook
